import Mathlib

/-!
Verification of the plank-generation subsystem of hongha1412/template-vue-ts.

The embedding covers:
* the Memento / Originator / Caretaker triad of
  src/game/memento/MementoConcept.ts (snapshot capture, restore, bounded
  history with FIFO eviction, undo);
* the candidate Validity Oracle wouldOverlapWithHistory and the placement
  geometry placePlankForNote of the MusicMelody scene in the same file;
* the backtracking search driver of .tmp/MusicMelody.ts
  (generateWithBacktracking, simulateUntilNextNote, tryPlacePlank,
  rewindCurrentState, update).

Numeric state that the TypeScript code stores in doubles is modelled with
exact rationals where the code only copies and compares it, and with real
numbers where trigonometry is involved (rotation by an angle, Euclidean
distances).  Physics outcomes (collision queries, stepping) are external to
the subsystem and are supplied by explicit oracle parameters.
-/

/-! ### Data model: ball, planks, snapshots (MementoConcept.ts) -/

/-- Kinematic state of the ball as captured by the Memento constructor:
translation x/y and linear velocity x/y. -/
structure BallState where
  x : ℚ
  y : ℚ
  velocityX : ℚ
  velocityY : ℚ
deriving DecidableEq

/-- The Rapier rigid body behind a plank sprite: translation, rotation and
the engine handle. -/
structure PlankBody where
  x : ℚ
  y : ℚ
  rotation : ℚ
  handle : Int
deriving DecidableEq

/-- A plank as stored in the scene's planks array.  The array holds the
Phaser sprites; the placement code sets sprite.body and sprite.rotations.
No code ever sets a userData or a handle property on the sprite itself, so
a JavaScript read of plank.userData or plank.handle yields undefined; both
are therefore Option-valued here and are none for every plank the scene
actually builds. -/
structure Plank where
  body : PlankBody
  rotations : List ℚ
  userData : Option (List ℚ)
  handle : Option Int
deriving DecidableEq

/-- One entry of Memento.plankStates. -/
structure PlankState where
  x : ℚ
  y : ℚ
  rotations : List ℚ
  handle : Int
deriving DecidableEq

/-- A well-formed snapshot, as produced by the Memento constructor. -/
structure Memento where
  ballState : BallState
  plankStates : List PlankState
  time : ℚ
deriving DecidableEq

/-- A snapshot as the dynamically typed restore path sees it: the ballState
and plankStates fields may be missing (undefined), which models a malformed
or corrupt snapshot. -/
structure RawMemento where
  ballState : Option BallState
  plankStates : Option (List PlankState)
  time : ℚ
deriving DecidableEq

/-- Every well-formed snapshot is a raw snapshot with all fields present. -/
def Memento.raw (m : Memento) : RawMemento :=
  { ballState := some m.ballState, plankStates := some m.plankStates, time := m.time }

/-- The plank entry the Memento constructor captures for one plank:
x/y from the body, rotations from the sprite's (absent) userData followed by
the body's rotation, and the body's handle. -/
def capturePlankState (p : Plank) : PlankState :=
  { x := p.body.x
    y := p.body.y
    rotations := p.userData.getD [] ++ [p.body.rotation]
    handle := p.body.handle }

/-- The Memento constructor: deep copy of the ball state, the plank entries
and the time.  Originator.saveState just forwards to this. -/
def mkMemento (ball : BallState) (planks : List Plank) (time : ℚ) : Memento :=
  { ballState := ball
    plankStates := planks.map capturePlankState
    time := time }

/-- The Originator state the restore path mutates: the ball it owns a
reference to and the pending planksToRemove list.  restoreState pushes the
popped sprite's handle property onto planksToRemove, so the entries are
Option Int. -/
structure OriginatorSt where
  ball : BallState
  planksToRemove : List (Option Int)
deriving DecidableEq

/-- The value restoreState returns.  The normal path returns a time and an
angle field (the popped plank's rotations, or undefined when no plank was
popped); the catch path returns time 0 and handle -1.  Absent fields are
none. -/
structure RestoreResult where
  time : ℚ
  angle : Option (List ℚ)
  handle : Option Int
deriving DecidableEq

/-- The sentinel no-op result produced by the catch branch of restoreState:
time 0, no angle, handle -1. -/
def restoreSentinel : RestoreResult :=
  { time := 0, angle := none, handle := some (-1) }

/-- The try block of Originator.restoreState.  An error value carries the
originator state and plank list as already mutated when the exception was
raised: reading a missing ballState throws before any mutation; reading a
missing plankStates throws after the ball has been set; popping an empty
currentPlanks yields undefined whose handle read throws, also after the
ball has been set.  JavaScript pop takes the last array element, modelled
by getLast? and dropLast. -/
def restoreTry (m : RawMemento) (currentPlanks : List Plank) (st : OriginatorSt) :
    Except (OriginatorSt × List Plank) (OriginatorSt × List Plank × RestoreResult) :=
  match m.ballState with
  | none => .error (st, currentPlanks)
  | some bs =>
    let st1 : OriginatorSt := { st with ball := bs }
    match m.plankStates with
    | none => .error (st1, currentPlanks)
    | some ps =>
      if currentPlanks.length ≥ ps.length then
        match currentPlanks.getLast? with
        | none => .error (st1, currentPlanks)
        | some plank =>
            .ok ({ st1 with planksToRemove := st1.planksToRemove ++ [plank.handle] },
                 currentPlanks.dropLast,
                 { time := m.time, angle := some plank.rotations, handle := none })
      else
        .ok (st1, currentPlanks, { time := m.time, angle := none, handle := none })

/-- Originator.restoreState: run the try block; on an exception return the
sentinel result, keeping whatever mutations already happened. -/
def restoreState (m : RawMemento) (currentPlanks : List Plank) (st : OriginatorSt) :
    OriginatorSt × List Plank × RestoreResult :=
  match restoreTry m currentPlanks st with
  | .ok r => r
  | .error (st1, cur1) => (st1, cur1, restoreSentinel)

/-! ### Caretaker: bounded history and undo (MementoConcept.ts) -/

/-- Caretaker.save: push the new memento; if the length now exceeds 1000,
shift off the oldest entry (the array head). -/
def caretakerSave (ms : List Memento) (m : Memento) : List Memento :=
  let l := ms ++ [m]
  if l.length > 1000 then l.tail else l

/-- The pop-while loop inside Caretaker.undo, acting on the reversed
memento list (JavaScript pops from the end of the array): keep popping
while the popped memento's plank count equals the live plank count; stop
with the first memento that differs, or with none when the list runs dry. -/
def popSkip : List Memento → Nat → List Memento × Option Memento
  | [], _ => ([], none)
  | m :: rest, n =>
      if m.plankStates.length = n then popSkip rest n else (rest, some m)

/-- Caretaker.undo: if the history is non-empty, pop mementos while their
plank count equals the live plank count; restore the first differing
memento if one was found, otherwise return the sentinel.  The returned
memento list is the history that remains. -/
def caretakerUndo (ms : List Memento) (currentPlanks : List Plank) (st : OriginatorSt) :
    List Memento × OriginatorSt × List Plank × RestoreResult :=
  if ms.length > 0 then
    match popSkip ms.reverse currentPlanks.length with
    | (restRev, some m) =>
        let r := restoreState m.raw currentPlanks st
        (restRev.reverse, r.1, r.2.1, r.2.2)
    | (restRev, none) => (restRev.reverse, st, currentPlanks, restoreSentinel)
  else (ms, st, currentPlanks, restoreSentinel)

/-! ### Validity Oracle: wouldOverlapWithHistory (MementoConcept.ts) -/

/-- The Rapier active collision types the candidate collider toggles
between: the inert sensor probe collides fixed-fixed (so the fixed plank
can be tested against the fixed ball-history sensors and the ball), an
armed plank collides dynamic-fixed. -/
inductive ActiveCollisionTypes where
  | fixedFixed
  | dynamicFixed
deriving DecidableEq

/-- The observable configuration of the candidate plank collider. -/
structure PlankColliderSt where
  sensor : Bool
  enabled : Bool
  restitution : ℚ
  activeTypes : ActiveCollisionTypes
deriving DecidableEq

/-- The collider as wouldOverlapWithHistory first creates it: a sensor,
enabled, with Rapier's default restitution 0 and fixed-fixed collision
types. -/
def initialCandidateCollider : PlankColliderSt :=
  { sensor := true, enabled := true, restitution := 0, activeTypes := .fixedFixed }

/-- The result of wouldOverlapWithHistory: committed is false when the
function returned the literal false (candidate rejected) and true when it
returned the plank body; collider is the final configuration of the
candidate collider either way. -/
structure CandidateResult where
  committed : Bool
  collider : PlankColliderSt
deriving DecidableEq

/-- A collider is armed for real physical interaction: collision response
on (not a sensor), still enabled, restitution 1.1, dynamic-fixed types. -/
def colliderArmed (c : PlankColliderSt) : Prop :=
  c.sensor = false ∧ c.enabled = true ∧ c.restitution = 1.1 ∧
    c.activeTypes = .dynamicFixed

instance (c : PlankColliderSt) : Decidable (colliderArmed c) := by
  unfold colliderArmed; infer_instance

/-- wouldOverlapWithHistory: create the candidate as an inert sensor body
at the given pose, ask the world whether it intersects the ball's collider
(the answer is the intersectBall parameter), and either reject it (disable
the collider, return false) or arm it (dynamic-fixed collision types,
sensor off, restitution 1.1) and return the body.  The pose arguments do
not influence the decision; they are kept to mirror the source
signature. -/
def wouldOverlapWithHistory (intersectBall : Bool) (plankCenter : ℚ × ℚ) (angle : ℚ) :
    CandidateResult :=
  let c := initialCandidateCollider
  let _ := plankCenter
  let _ := angle
  if intersectBall then
    { committed := false, collider := { c with enabled := false } }
  else
    { committed := true
      collider := { c with activeTypes := .dynamicFixed, sensor := false, restitution := 1.1 } }

/-! ### Backtracking search driver (.tmp/MusicMelody.ts) -/

/-- One StackState frame of the search stack: the note index it serves,
the cursor into the rotation permutation (-1 is the needs-simulation
sentinel), the permutation itself, the plank count of the world snapshot
taken when the frame was pushed, and the simulation steps consumed so
far.  The snapshot's ball and plank poses do not influence the driver's
control flow (all physics outcomes arrive through the oracle), so the
snapshot is abstracted to the plank count that restoreWorldState
recreates. -/
structure StackState where
  noteIndex : Nat
  rotationIndex : Int
  rotationPermutation : List Nat
  snapshotPlanks : Nat
  simulationSteps : Nat
deriving DecidableEq

/-- The scene state the generation driver reads and mutates. -/
structure DriverSt where
  stateStack : List StackState
  planks : Nat
  maxPlanksGenerated : Nat
  noImprovementCount : Nat
  isGenerating : Bool
  currentNoteIndex : Nat
  notesLen : Nat
  simCalls : Nat
  placeCalls : Nat
  permCalls : Nat
deriving DecidableEq

/-- External outcomes the driver consumes, indexed by how many times the
corresponding call has happened: whether the k-th simulateUntilNextNote
call succeeds and how many physics steps it consumes, whether the k-th
tryPlacePlank call commits a plank (the historical-collision check and the
geometry live outside the driver loop), and the k-th random rotation
permutation. -/
structure GenOracle where
  simOk : Nat → Bool
  simSteps : Nat → Nat
  placeOk : Nat → Bool
  perm : Nat → List Nat

/-- The eleven discrete plank orientation offsets. -/
def PLANK_ROTATIONS : List ℚ :=
  [0, 0.15, -0.15, 0.6, -0.6, 0.3, -0.3, 0.9, -0.9, 1.1, -1.1]

/-- rewindCurrentState: pop the top frame; when it consumed at least one
simulation step, the restoreWorldState loop runs and puts the plank set
back to the popped frame's snapshot (running it several times is
idempotent); with zero steps the loop body never runs and the world is
left as it is.  The stack top is the list head here (JavaScript pushes and
pops at the array end). -/
def rewindCurrentState (st : DriverSt) : DriverSt :=
  match st.stateStack with
  | [] => st
  | f :: rest =>
      if f.simulationSteps > 0 then
        { st with stateStack := rest, planks := f.snapshotPlanks }
      else { st with stateStack := rest }

/-- pushNewState: push a frame for note currentNoteIndex + 1 with the
needs-simulation cursor, an empty permutation, a snapshot of the world as
it now stands, and a zero step count. -/
def pushNewState (st : DriverSt) : DriverSt :=
  { st with stateStack :=
      { noteIndex := st.currentNoteIndex + 1
        rotationIndex := -1
        rotationPermutation := []
        snapshotPlanks := st.planks
        simulationSteps := 0 } :: st.stateStack }

/-- The placement tail of one loop pass: call tryPlacePlank (outcome from
the oracle; on success it appends one plank to the scene), then either
push a frame for the next note (this is the only counted iteration), or
advance the cursor and rewind when the permutation is exhausted.  cur is
the current top frame and rest the frames below it. -/
def tryPlacePhase (o : GenOracle) (st : DriverSt) (cur : StackState)
    (rest : List StackState) : DriverSt × Bool :=
  let ok := o.placeOk st.placeCalls
  let st1 := { st with placeCalls := st.placeCalls + 1 }
  if ok then
    let st2 := { st1 with planks := st1.planks + 1, stateStack := cur :: rest }
    (pushNewState st2, true)
  else
    let cur1 := { cur with rotationIndex := cur.rotationIndex + 1 }
    let st2 := { st1 with stateStack := cur1 :: rest }
    if cur1.rotationIndex ≥ (PLANK_ROTATIONS.length : Int) then
      (rewindCurrentState st2, false)
    else (st2, false)

/-- One pass of the generateWithBacktracking while loop.  Returns the new
scene state and whether the pass reached the iterations++ at the loop end
(it only does after a successful placement and push). -/
def genPass (o : GenOracle) (st : DriverSt) : DriverSt × Bool :=
  let st1 :=
    if st.planks > st.maxPlanksGenerated then
      { st with maxPlanksGenerated := st.planks, noImprovementCount := 0 }
    else { st with noImprovementCount := st.noImprovementCount + 1 }
  if st1.noImprovementCount > 2000 ∧
      ((st1.planks : ℚ) > (st1.maxPlanksGenerated : ℚ) - (st1.notesLen : ℚ) / 10) then
    (rewindCurrentState st1, false)
  else
    let st2 :=
      if st1.noImprovementCount > 2000 then
        { st1 with noImprovementCount := 0, maxPlanksGenerated := st1.planks }
      else st1
    match st2.stateStack with
    | [] => (st2, false)
    | cur :: rest =>
        if cur.rotationIndex = -1 then
          let cur1 := { cur with simulationSteps := cur.simulationSteps + o.simSteps st2.simCalls }
          let ok := o.simOk st2.simCalls
          let st3 := { st2 with simCalls := st2.simCalls + 1, stateStack := cur1 :: rest }
          if ok then
            let cur2 := { cur1 with rotationPermutation := o.perm st3.permCalls, rotationIndex := 0 }
            let st4 := { st3 with permCalls := st3.permCalls + 1, stateStack := cur2 :: rest }
            tryPlacePhase o st4 cur2 rest
          else (rewindCurrentState st3, false)
        else tryPlacePhase o st2 cur rest

/-- What the while loop of generateWithBacktracking produced: the final
scene state, the final iterations counter, the number of loop passes
executed (instrumentation: the source does not count passes), and whether
the loop exited because its guard became false (with insufficient fuel the
guard was still true when the modelling fuel ran out). -/
structure LoopOut where
  st : DriverSt
  iterations : Nat
  passes : Nat
  completed : Bool
deriving DecidableEq

/-- The while loop of generateWithBacktracking: run passes while
iterations < iterationsPerFrame and the stack is non-empty.  fuel bounds
the recursion of the model only; the source loop has no such bound. -/
def genLoop (o : GenOracle) (budget : Nat) :
    Nat → DriverSt → Nat → Nat → LoopOut
  | 0, st, it, ps =>
      if it < budget ∧ st.stateStack ≠ [] then ⟨st, it, ps, false⟩ else ⟨st, it, ps, true⟩
  | fuel + 1, st, it, ps =>
      if it < budget ∧ st.stateStack ≠ [] then
        let r := genPass o st
        genLoop o budget fuel r.1 (if r.2 then it + 1 else it) (ps + 1)
      else ⟨st, it, ps, true⟩

/-- The full result of one generateWithBacktracking invocation.
startedRegularGameplay records whether the post-loop empty-stack check
fired and called startRegularGameplay. -/
structure GenOut where
  st : DriverSt
  iterations : Nat
  passes : Nat
  completed : Bool
  startedRegularGameplay : Bool
deriving DecidableEq

/-- generateWithBacktracking: run the loop, then, if the stack is empty,
stop generating and hand off to regular gameplay (startRegularGameplay
clears isGenerating again and resets currentNoteIndex to 0). -/
def generateWithBacktracking (o : GenOracle) (fuel : Nat) (iterationsPerFrame : Nat)
    (st : DriverSt) : GenOut :=
  let r := genLoop o iterationsPerFrame fuel st 0 0
  if r.st.stateStack = [] then
    ⟨{ r.st with isGenerating := false, currentNoteIndex := 0 },
     r.iterations, r.passes, r.completed, true⟩
  else ⟨r.st, r.iterations, r.passes, r.completed, false⟩

/-- update, generation side: while isGenerating, each frame runs
generateWithBacktracking with an iterationsPerFrame budget of 20.  The
non-generating branch steps the world and checks collisions, none of which
touches the driver state modelled here. -/
def update (o : GenOracle) (fuel : Nat) (st : DriverSt) : GenOut :=
  if st.isGenerating then generateWithBacktracking o fuel 20 st
  else ⟨st, 0, 0, true, false⟩

/-! ### Forward simulation phase: simulateUntilNextNote (.tmp/MusicMelody.ts) -/

/-- The hard cap on physics steps per forward-simulation phase. -/
def MAX_SIMULATION_STEPS : Nat := 200

/-- What one physics step exposes to the checks that follow it: whether the
ball has a contact pair, the current wall-clock time relative to startTime,
and the ball's y position. -/
structure SimObs where
  hasCollision : Bool
  currentTime : ℚ
  ballY : ℚ

/-- The while loop of simulateUntilNextNote.  obs k describes the world
after the step taken when the local steps counter was k.  fuel equals
MAX_SIMULATION_STEPS minus the steps already taken, so the loop guard
steps < MAX_SIMULATION_STEPS is the fuel being positive.  Returns the
boolean outcome and the final steps counter.  Order of the exits matches
the source: contact pair found (false), note time reached (true), ball out
of the y bounds -10..10 (false); running out of steps returns true. -/
def simulateGo (notes : List ℚ) (noteIndex : Nat) (obs : Nat → SimObs) :
    Nat → Nat → Bool × Nat
  | 0, steps => (true, steps)
  | fuel + 1, steps =>
      let o := obs steps
      if o.hasCollision then (false, steps + 1)
      else if noteIndex < notes.length ∧ notes.getD noteIndex 0 ≤ o.currentTime then
        (true, steps + 1)
      else if o.ballY < -10 ∨ o.ballY > 10 then (false, steps + 1)
      else simulateGo notes noteIndex obs fuel (steps + 1)

/-- simulateUntilNextNote for the frame serving noteIndex: run the step
loop from zero steps with the full step budget.  notes is the schedule of
note times. -/
def simulateUntilNextNote (notes : List ℚ) (noteIndex : Nat) (obs : Nat → SimObs) :
    Bool × Nat :=
  simulateGo notes noteIndex obs MAX_SIMULATION_STEPS 0

/-! ### Placement geometry (tryPlacePlank and placePlankForNote) -/

/-- Componentwise vector operations on 2-D vectors, as Phaser's Vector2
implements them. -/
def vecAdd (a b : ℝ × ℝ) : ℝ × ℝ := (a.1 + b.1, a.2 + b.2)

/-- Vector difference, Phaser's subtract. -/
def vecSub (a b : ℝ × ℝ) : ℝ × ℝ := (a.1 - b.1, a.2 - b.2)

/-- Scaling a vector by a scalar (Phaser's scale, and multiply by a vector
whose two components are equal). -/
def vecScale (a : ℝ × ℝ) (s : ℝ) : ℝ × ℝ := (a.1 * s, a.2 * s)

/-- Phaser's Vector2.dot. -/
def vecDot (a b : ℝ × ℝ) : ℝ := a.1 * b.1 + a.2 * b.2

/-- Phaser's Vector2.lengthSq. -/
def vecLengthSq (a : ℝ × ℝ) : ℝ := a.1 * a.1 + a.2 * a.2

/-- Euclidean distance between two points, Phaser's Vector2.distance. -/
noncomputable def vecDistance (a b : ℝ × ℝ) : ℝ :=
  Real.sqrt ((b.1 - a.1) ^ 2 + (b.2 - a.2) ^ 2)

/-- Modelled from the spec: the rotateVector helper of .tmp/MusicMelody.ts
is elided in the source (helper methods remain the same); the spec calls
for rotating a vector by an angle, the standard 2-D rotation.  Phaser's
Vector2.rotate applies the same map in place. -/
noncomputable def rotateVector (v : ℝ × ℝ) (angle : ℝ) : ℝ × ℝ :=
  (Real.cos angle * v.1 - Real.sin angle * v.2,
   Real.sin angle * v.1 + Real.cos angle * v.2)

/-- Modelled from the spec: the normalizeVector helper of
.tmp/MusicMelody.ts is elided in the source; the spec calls for the ball's
velocity direction, the velocity scaled to unit length. -/
noncomputable def normalizeVector (v : ℝ × ℝ) : ℝ × ℝ :=
  let len := Real.sqrt (v.1 ^ 2 + v.2 ^ 2)
  (v.1 / len, v.2 / len)

/-- The ball's collider radius. -/
def BALL_RADIUS : ℝ := 0.3

/-- The plank collider's half width (the cuboid half extent along its short
axis). -/
def PLANK_WIDTH : ℝ := 0.15

/-- The plank collider's half length. -/
def PLANK_HALF_LENGTH : ℝ := 0.6

/-- The pose and collider data of a placed plank. -/
structure PlacedPlank where
  center : ℝ × ℝ
  endA : ℝ × ℝ
  endB : ℝ × ℝ
  rotation : ℝ
  halfLength : ℝ
  halfWidth : ℝ
  restitution : ℝ

/-- The pose tryPlacePlank (.tmp/MusicMelody.ts) computes for the candidate
angle: direction is the normalized ball velocity, the placement direction
is that direction rotated by the angle, the center sits at
BALL_RADIUS + PLANK_WIDTH + 0.001 along the placement direction, the two
ends sit plus and minus PLANK_HALF_LENGTH along the perpendicular
(placement direction rotated by pi/2), the body rotation is the angle and
the collider is a cuboid with half extents PLANK_HALF_LENGTH and
PLANK_WIDTH, restitution 0.9. -/
noncomputable def tryPlacePlankPose (position velocity : ℝ × ℝ) (angle : ℝ) : PlacedPlank :=
  let direction := normalizeVector velocity
  let plankDirection := rotateVector direction angle
  let plankCenter := vecAdd position (vecScale plankDirection (BALL_RADIUS + PLANK_WIDTH + 0.001))
  let perpendicular := rotateVector plankDirection (Real.pi / 2)
  { center := plankCenter
    endA := vecAdd plankCenter (vecScale perpendicular PLANK_HALF_LENGTH)
    endB := vecSub plankCenter (vecScale perpendicular PLANK_HALF_LENGTH)
    rotation := angle
    halfLength := PLANK_HALF_LENGTH
    halfWidth := PLANK_WIDTH
    restitution := 0.9 }

/-- The pose one iteration of the placePlankForNote loop
(MementoConcept.ts) computes, together with the direction vector it leaves
behind: Phaser's rotate mutates the direction in place, so the iteration
works with the incoming direction rotated by the candidate angle and the
next iteration starts from that mutated vector.  The center distance here
is 0.3 + 0.15 * 2 + 1e-3 (ball radius plus twice the plank half width plus
epsilon), the ends use the 90-degree perpendicular scaled by 0.6 and the
body rotation is the angle; the collider (created in
wouldOverlapWithHistory) is a cuboid with half extents 0.6 and 0.15. -/
noncomputable def placePlankCandidate (predictedPosition dirIn : ℝ × ℝ) (angle : ℝ) :
    (ℝ × ℝ) × PlacedPlank :=
  let plankDir := rotateVector dirIn angle
  let plankCenter := vecAdd predictedPosition (vecScale plankDir (0.3 + 0.15 * 2 + 1e-3))
  let perpendicular := rotateVector plankDir (Real.pi / 2)
  (plankDir,
   { center := plankCenter
     endA := vecAdd plankCenter (vecScale perpendicular 0.6)
     endB := vecSub plankCenter (vecScale perpendicular 0.6)
     rotation := angle
     halfLength := 0.6
     halfWidth := 0.15
     restitution := 1.1 })

/-! ### Point-to-segment distance (MementoConcept.ts) -/

/-- pointToSegmentDistance: distance from point to lineStart when the
projection of point onto the segment's line falls before lineStart
(non-positive dot product), distance to lineEnd when it falls past lineEnd
(dot product at least the squared segment length), and otherwise the
distance to the orthogonal projection onto the segment. -/
noncomputable def pointToSegmentDistance (lineStart lineEnd point : ℝ × ℝ) : ℝ :=
  let lineVec := vecSub lineEnd lineStart
  let pointVec := vecSub point lineStart
  let dotProduct := vecDot pointVec lineVec
  if dotProduct ≤ 0 then vecDistance point lineStart
  else
    let squaredLineLength := vecLengthSq lineVec
    if dotProduct ≥ squaredLineLength then vecDistance point lineEnd
    else vecDistance point (vecAdd lineStart (vecScale lineVec (dotProduct / squaredLineLength)))

/-- Membership in the closed segment from a to b, parametrized by
t in the unit interval. -/
def onSegment (a b q : ℝ × ℝ) : Prop :=
  ∃ t : ℝ, 0 ≤ t ∧ t ≤ 1 ∧ q = vecAdd a (vecScale (vecSub b a) t)

/-! ### Concrete fixtures used by witnesses and counterexamples -/

/-- A memento with no planks, as the scene's very first save produces. -/
def mementoEx : Memento :=
  { ballState := ⟨0, -4, 2, 10⟩, plankStates := [], time := 0 }

/-- A committed plank fixture. -/
def plankEx : Plank :=
  { body := { x := 1, y := 2, rotation := 3, handle := 7 }
    rotations := [3]
    userData := none
    handle := none }

/-- An originator state fixture: the ball at its spawn state, nothing
pending removal. -/
def stEx : OriginatorSt :=
  { ball := ⟨0, -4, 2, 10⟩, planksToRemove := [] }

/-! ### C1: the Validity Oracle commits only non-overlapping candidates -/

/-- C1: a committed candidate was reported non-overlapping by the oracle
and is armed (collision response and restitution enabled); an overlapping
candidate is rejected with its collider disabled and never armed, so it
can never exert a physical response. -/
theorem validity_oracle_no_overlap_commit :
    ∀ (intersectBall : Bool) (plankCenter : ℚ × ℚ) (angle : ℚ),
      ((wouldOverlapWithHistory intersectBall plankCenter angle).committed = true →
        intersectBall = false ∧
        colliderArmed (wouldOverlapWithHistory intersectBall plankCenter angle).collider) ∧
      (intersectBall = true →
        (wouldOverlapWithHistory intersectBall plankCenter angle).committed = false ∧
        (wouldOverlapWithHistory intersectBall plankCenter angle).collider.enabled = false ∧
        (wouldOverlapWithHistory intersectBall plankCenter angle).collider.sensor = true ∧
        ¬ colliderArmed (wouldOverlapWithHistory intersectBall plankCenter angle).collider) := by
  intro b c a
  cases b <;> simp [wouldOverlapWithHistory, initialCandidateCollider, colliderArmed]

/-- Witness for C1 at concrete inputs: a non-overlapping candidate ends up
armed, an overlapping one is not committed. -/
theorem validity_oracle_no_overlap_commit_witness :
    colliderArmed (wouldOverlapWithHistory false (0, 0) 0).collider ∧
    (wouldOverlapWithHistory true (0, 0) 0).committed = false :=
  ⟨((validity_oracle_no_overlap_commit false (0, 0) 0).1 (by decide)).2,
   ((validity_oracle_no_overlap_commit true (0, 0) 0).2 rfl).1⟩

/-! ### C2: what restoring a just-captured snapshot actually does -/

/-- Restoring a snapshot captured from the current state resolves as
follows: the ball is set to the captured values, and since the live plank
count always equals the captured count, the restore pops the last live
plank (scheduling its sprite handle for removal) or, with no planks, fails
on the undefined pop result and returns the sentinel. -/
theorem restore_capture_eq (ball : BallState) (planks : List Plank) (t : ℚ)
    (st : OriginatorSt) :
    restoreState (Memento.raw (mkMemento ball planks t)) planks st =
      match planks.getLast? with
      | none => ({ st with ball := ball }, planks, restoreSentinel)
      | some p =>
          ({ ball := ball, planksToRemove := st.planksToRemove ++ [p.handle] },
           planks.dropLast,
           { time := t, angle := some p.rotations, handle := none }) := by
  cases hL : planks.getLast? <;>
    simp [restoreState, restoreTry, Memento.raw, mkMemento, hL]

/-- C2 (amended): restore of a capture of S reproduces the ball's position
and velocity, but not the obstacle id set: with at least one live plank the
last plank is popped from the live list and its handle property pushed onto
planksToRemove, and with no planks the pop fails and the sentinel is
returned. -/
theorem snapshot_restore_characterization :
    ∀ (ball : BallState) (planks : List Plank) (t : ℚ) (st : OriginatorSt),
      (restoreState (Memento.raw (mkMemento ball planks t)) planks st).1.ball = ball ∧
      (planks.getLast? = none →
        restoreState (Memento.raw (mkMemento ball planks t)) planks st =
          ({ st with ball := ball }, planks, restoreSentinel)) ∧
      (∀ p : Plank, planks.getLast? = some p →
        restoreState (Memento.raw (mkMemento ball planks t)) planks st =
          ({ ball := ball, planksToRemove := st.planksToRemove ++ [p.handle] },
           planks.dropLast,
           { time := t, angle := some p.rotations, handle := none })) := by
  intro ball planks t st
  refine ⟨?_, ?_, ?_⟩
  · rw [restore_capture_eq]
    cases planks.getLast? <;> rfl
  · intro hn
    rw [restore_capture_eq, hn]
  · intro p hp
    rw [restore_capture_eq, hp]

/-- C2 counterexample: capturing a one-plank state and restoring it with no
mutation in between empties the live plank list — the surviving obstacle of
the snapshot is removed rather than left untouched — and schedules a
removal, so the obstacle id set of S is not reproduced. -/
theorem snapshot_roundtrip_counterexample :
    (restoreState (Memento.raw (mkMemento stEx.ball [plankEx] 100)) [plankEx] stEx).2.1 = [] ∧
    ([plankEx] : List Plank) ≠ [] ∧
    (restoreState (Memento.raw (mkMemento stEx.ball [plankEx] 100)) [plankEx]
        stEx).1.planksToRemove = [plankEx.handle] := by
  decide

/-- Witness for C2 (amended) at concrete inputs: the empty capture restores
to the sentinel, a one-plank capture pops that plank. -/
theorem snapshot_restore_characterization_witness :
    restoreState (Memento.raw (mkMemento stEx.ball [] 0)) [] stEx =
      (stEx, [], restoreSentinel) ∧
    restoreState (Memento.raw (mkMemento stEx.ball [plankEx] 100)) [plankEx] stEx =
      ({ ball := stEx.ball, planksToRemove := [plankEx.handle] },
       [], { time := 100, angle := some plankEx.rotations, handle := none }) :=
  ⟨(snapshot_restore_characterization stEx.ball [] 0 stEx).2.1 rfl,
   (snapshot_restore_characterization stEx.ball [plankEx] 100 stEx).2.2 plankEx (by decide)⟩

/-! ### C6: bounded history with FIFO eviction -/

/-- C6: after any sequence of saves into an initially empty history the
stored snapshot count never exceeds 1000, and a save onto a full history
evicts exactly the oldest entry. -/
theorem caretaker_history_bounded_fifo :
    (∀ pushes : List Memento, (pushes.foldl caretakerSave []).length ≤ 1000) ∧
    (∀ (ms : List Memento) (m : Memento), ms.length = 1000 →
      caretakerSave ms m = ms.tail ++ [m]) := by
  constructor
  · have key : ∀ (l ms : List Memento), ms.length ≤ 1000 →
        (l.foldl caretakerSave ms).length ≤ 1000 := by
      intro l
      induction l with
      | nil => intro ms h; simpa using h
      | cons a t ih =>
          intro ms h
          rw [List.foldl_cons]
          apply ih
          simp only [caretakerSave]
          split_ifs with hc
          · simp only [List.length_tail, List.length_append, List.length_cons,
              List.length_nil] at *
            omega
          · simp only [List.length_append, List.length_cons, List.length_nil,
              not_lt] at *
            omega
    intro pushes
    exact key pushes [] (by simp)
  · intro ms m h
    simp only [caretakerSave]
    rw [if_pos (by simp [h])]
    cases ms with
    | nil => simp at h
    | cons a t => simp

/-- Witness for C6 at a concrete full history: saving onto 1000 stored
mementos drops the oldest and appends the new one. -/
theorem caretaker_history_bounded_fifo_witness :
    caretakerSave (List.replicate 1000 mementoEx) mementoEx =
      (List.replicate 1000 mementoEx).tail ++ [mementoEx] :=
  caretaker_history_bounded_fifo.2 (List.replicate 1000 mementoEx) mementoEx
    (List.length_replicate 1000 mementoEx)

/-! ### C7: malformed snapshot on restore -/

/-- C7 (amended): an exception inside restoreState is always caught and
surfaces as the sentinel result with time 0 and handle -1, never as an
exception to the caller; when the ball-state field itself is missing the
call is a true no-op, but corruption detected later leaves the ball already
set to the snapshot values. -/
theorem restore_error_caught_sentinel :
    ∀ (m : RawMemento) (cur : List Plank) (st : OriginatorSt),
      (∀ err : OriginatorSt × List Plank, restoreTry m cur st = .error err →
        (restoreState m cur st).2.2 = restoreSentinel) ∧
      (m.ballState = none → restoreState m cur st = (st, cur, restoreSentinel)) := by
  intro m cur st
  constructor
  · rintro ⟨e1, e2⟩ herr
    simp [restoreState, herr]
  · intro h
    simp [restoreState, restoreTry, h]

/-- A corrupt snapshot whose ball state is present but whose plank list is
missing. -/
def corruptMemento : RawMemento :=
  { ballState := some ⟨1, 2, 3, 4⟩, plankStates := none, time := 42 }

/-- A corrupt snapshot with every captured field missing. -/
def missingBallMemento : RawMemento :=
  { ballState := none, plankStates := none, time := 0 }

/-- C7 counterexample: restoring a snapshot whose plank list is corrupt
returns the sentinel, yet the ball has already been moved to the snapshot
values — the failed restore is not atomic, contradicting the no-change
part of the claim. -/
theorem restore_not_atomic_counterexample :
    (restoreState corruptMemento [] stEx).2.2 = restoreSentinel ∧
    (restoreState corruptMemento [] stEx).1.ball ≠ stEx.ball := by
  decide

/-- Witness for C7 (amended) at a concrete corrupt snapshot with no ball
state: sentinel result and a fully unchanged state. -/
theorem restore_error_caught_sentinel_witness :
    (restoreState missingBallMemento [] stEx).2.2 = restoreSentinel ∧
    restoreState missingBallMemento [] stEx = (stEx, [], restoreSentinel) :=
  ⟨(restore_error_caught_sentinel missingBallMemento [] stEx).1 (stEx, []) rfl,
   (restore_error_caught_sentinel missingBallMemento [] stEx).2 rfl⟩

/-! ### C9: undo with no restorable memento is a no-op -/

/-- The pop-while loop consumes the whole history when every entry matches
the skip predicate and reports that no memento remained. -/
theorem popSkip_all_skip (l : List Memento) (n : Nat)
    (h : ∀ m ∈ l, m.plankStates.length = n) : popSkip l n = ([], none) := by
  induction l with
  | nil => rfl
  | cons a t ih =>
      simp only [popSkip]
      rw [if_pos (h a (by simp))]
      exact ih fun m hm => h m (by simp [hm])

/-- C9: undo on an empty history, or on a history whose every memento has
the same plank count as the live plank list, returns the sentinel
time 0 / handle -1 and leaves the ball, the live plank list and the
pending planksToRemove list unchanged (the skipped history itself is
consumed). -/
theorem undo_no_restorable_memento_noop :
    ∀ (ms : List Memento) (cur : List Plank) (st : OriginatorSt),
      (∀ m ∈ ms, m.plankStates.length = cur.length) →
      caretakerUndo ms cur st = ([], st, cur, restoreSentinel) := by
  intro ms cur st h
  unfold caretakerUndo
  by_cases hms : ms.length > 0
  · rw [if_pos hms,
      popSkip_all_skip ms.reverse cur.length fun m hm => h m (List.mem_reverse.mp hm)]
    simp
  · rw [if_neg hms]
    cases ms with
    | nil => rfl
    | cons a t => simp at hms

/-- Witness for C9 at a concrete one-element history whose memento matches
the live plank count. -/
theorem undo_no_restorable_memento_noop_witness :
    caretakerUndo [mementoEx] [] stEx = ([], stEx, [], restoreSentinel) :=
  undo_no_restorable_memento_noop [mementoEx] [] stEx (by decide)

/-! ### C3 and C8: driver termination behavior and tick budget -/

/-- A freshly pushed frame awaiting its forward simulation. -/
def frameNeedsSim : StackState :=
  { noteIndex := 0, rotationIndex := -1, rotationPermutation := []
    snapshotPlanks := 0, simulationSteps := 0 }

/-- An oracle under which every forward simulation fails immediately (and
consumes no steps) and no placement ever succeeds. -/
def oracleAllFail : GenOracle :=
  { simOk := fun _ => false, simSteps := fun _ => 0
    placeOk := fun _ => false, perm := fun _ => [] }

/-- A generating scene state with the given search stack and no planks. -/
def driverStWith (frames : List StackState) : DriverSt :=
  { stateStack := frames, planks := 0, maxPlanksGenerated := 0
    noImprovementCount := 0, isGenerating := true, currentNoteIndex := 0
    notesLen := 3, simCalls := 0, placeCalls := 0, permCalls := 0 }

/-- C3 counterexample: at a concrete state whose only frame backtracks, the
pop empties the stack and the invocation performs the regular-gameplay
handoff (startRegularGameplay runs, isGenerating is cleared) — there is no
FAILED outcome, contradicting the claim that the engine goes to FAILED
rather than to the gameplay handoff. -/
theorem backtrack_empty_stack_counterexample :
    (update oracleAllFail 5 (driverStWith [frameNeedsSim])).st.stateStack = [] ∧
    (update oracleAllFail 5 (driverStWith [frameNeedsSim])).startedRegularGameplay = true ∧
    (update oracleAllFail 5 (driverStWith [frameNeedsSim])).st.isGenerating = false := by
  decide

/-- C3 (amended): whenever the generation loop ends with an empty search
stack — in particular when backtracking pops the last frame — the engine
stops generating and hands off to regular gameplay (startRegularGameplay:
isGenerating cleared, note index reset to 0); the code has no separate
FAILED outcome. -/
theorem backtrack_empty_stack_handoff :
    ∀ (o : GenOracle) (fuel budget : Nat) (st : DriverSt),
      (generateWithBacktracking o fuel budget st).st.stateStack = [] →
      (generateWithBacktracking o fuel budget st).startedRegularGameplay = true ∧
      (generateWithBacktracking o fuel budget st).st.isGenerating = false ∧
      (generateWithBacktracking o fuel budget st).st.currentNoteIndex = 0 := by
  intro o fuel budget st hstack
  simp only [generateWithBacktracking] at hstack ⊢
  split_ifs at hstack ⊢ with hc
  · exact ⟨rfl, rfl, rfl⟩
  · exact absurd hstack hc

/-- Witness for C3 (amended) at the concrete backtracking run. -/
theorem backtrack_empty_stack_handoff_witness :
    (generateWithBacktracking oracleAllFail 5 20 (driverStWith [frameNeedsSim])).startedRegularGameplay = true ∧
    (generateWithBacktracking oracleAllFail 5 20 (driverStWith [frameNeedsSim])).st.isGenerating = false ∧
    (generateWithBacktracking oracleAllFail 5 20 (driverStWith [frameNeedsSim])).st.currentNoteIndex = 0 :=
  backtrack_empty_stack_handoff oracleAllFail 5 20 (driverStWith [frameNeedsSim]) (by decide)

/-- The iterations counter of the while loop never exceeds the budget: it
only advances on passes that commit a placement, and the loop guard stops
it at the budget. -/
theorem genLoop_iterations_le (o : GenOracle) (budget : Nat) :
    ∀ (fuel : Nat) (st : DriverSt) (it ps : Nat), it ≤ budget →
      (genLoop o budget fuel st it ps).iterations ≤ budget := by
  intro fuel
  induction fuel with
  | zero =>
      intro st it ps h
      unfold genLoop
      split_ifs <;> exact h
  | succ n ih =>
      intro st it ps h
      unfold genLoop
      split_ifs with hc
      · apply ih
        split_ifs
        · omega
        · exact h
      · exact h

/-- C8 (amended): an update invocation in generation mode performs at most
20 counted iterations of the search loop, but only passes that commit a
placement are counted — failed placement attempts and backtracks do not
consume budget, and a single invocation can execute more raw loop passes
than the budget. -/
theorem tick_budget_counts_placements :
    (∀ (o : GenOracle) (fuel : Nat) (st : DriverSt),
      (update o fuel st).iterations ≤ 20) ∧
    (∃ (o : GenOracle) (fuel : Nat) (st : DriverSt),
      st.isGenerating = true ∧
      (update o fuel st).iterations = 0 ∧ (update o fuel st).passes = 25) := by
  constructor
  · intro o fuel st
    unfold update
    split_ifs
    · simp only [generateWithBacktracking]
      split_ifs <;> exact genLoop_iterations_le o 20 fuel st 0 0 (by omega)
    · exact Nat.zero_le 20
  · exact ⟨oracleAllFail, 30, driverStWith (List.replicate 25 frameNeedsSim),
      rfl, by decide, by decide⟩

/-- C8 counterexample: a concrete generation-mode invocation with the tick
budget of 20 executes 25 loop passes (25 backtracks, none counted), so the
claim that every loop pass counts against the budget of 20 is false. -/
theorem tick_budget_counterexample :
    (update oracleAllFail 30 (driverStWith (List.replicate 25 frameNeedsSim))).passes = 25 ∧
    ¬ (update oracleAllFail 30 (driverStWith (List.replicate 25 frameNeedsSim))).passes ≤ 20 := by
  decide

/-! ### C5: the forward-simulation step cap -/

/-- The steps counter grows by at most the remaining fuel. -/
theorem simulateGo_steps_le (notes : List ℚ) (ni : Nat) (obs : Nat → SimObs) :
    ∀ (fuel steps : Nat), (simulateGo notes ni obs fuel steps).2 ≤ steps + fuel := by
  intro fuel
  induction fuel with
  | zero => intro s; simp [simulateGo]
  | succ n ih =>
      intro s
      simp only [simulateGo]
      split_ifs
      · show s + 1 ≤ s + (n + 1); omega
      · show s + 1 ≤ s + (n + 1); omega
      · show s + 1 ≤ s + (n + 1); omega
      · exact le_trans (ih (s + 1)) (by omega)

/-- While no step observes a contact, a reached note time or an
out-of-bounds ball, the loop keeps stepping and, when the fuel runs out,
exits with the success outcome. -/
theorem simulateGo_cap_success (notes : List ℚ) (ni : Nat) (obs : Nat → SimObs) :
    ∀ (fuel steps : Nat),
      (∀ k, steps ≤ k → k < steps + fuel →
        (obs k).hasCollision = false ∧
        ¬ (ni < notes.length ∧ notes.getD ni 0 ≤ (obs k).currentTime) ∧
        -10 ≤ (obs k).ballY ∧ (obs k).ballY ≤ 10) →
      simulateGo notes ni obs fuel steps = (true, steps + fuel) := by
  intro fuel
  induction fuel with
  | zero => intro s h; simp [simulateGo]
  | succ n ih =>
      intro s h
      have hs := h s (le_refl s) (by omega)
      simp only [simulateGo]
      rw [if_neg (by simp [hs.1]), if_neg hs.2.1,
        if_neg (by push_neg; exact ⟨hs.2.2.1, hs.2.2.2⟩)]
      rw [show s + (n + 1) = (s + 1) + n from by omega]
      exact ih (s + 1) fun k hk1 hk2 => h k (by omega) (by omega)

/-- C5: the forward-simulation phase performs at most 200 physics steps,
and reaching that cap without a ball contact, without reaching the frame's
note time and without leaving the y bounds returns the success outcome
true (the frame proceeds to placement), not the backtracking outcome
false. -/
theorem simulate_step_cap_success :
    ∀ (notes : List ℚ) (ni : Nat) (obs : Nat → SimObs),
      (simulateUntilNextNote notes ni obs).2 ≤ MAX_SIMULATION_STEPS ∧
      ((∀ k, k < MAX_SIMULATION_STEPS →
          (obs k).hasCollision = false ∧
          ¬ (ni < notes.length ∧ notes.getD ni 0 ≤ (obs k).currentTime) ∧
          -10 ≤ (obs k).ballY ∧ (obs k).ballY ≤ 10) →
        simulateUntilNextNote notes ni obs = (true, MAX_SIMULATION_STEPS)) := by
  intro notes ni obs
  constructor
  · have h := simulateGo_steps_le notes ni obs MAX_SIMULATION_STEPS 0
    simpa [simulateUntilNextNote] using h
  · intro h
    have hgo := simulateGo_cap_success notes ni obs MAX_SIMULATION_STEPS 0
      (fun k _ hk2 => h k (by omega))
    simpa [simulateUntilNextNote] using hgo

/-- An oracle under which every step is quiet: no contact, time frozen at
zero, the ball resting at y = 0. -/
def quietObs : Nat → SimObs :=
  fun _ => { hasCollision := false, currentTime := 0, ballY := 0 }

/-- Witness for C5 with a single far-future note and quiet steps: the loop
runs the full 200 steps and reports success. -/
theorem simulate_step_cap_success_witness :
    simulateUntilNextNote [1000] 0 quietObs = (true, MAX_SIMULATION_STEPS) :=
  (simulate_step_cap_success [1000] 0 quietObs).2 (by
    intro k _
    exact ⟨rfl, by norm_num [quietObs], by norm_num [quietObs], by norm_num [quietObs]⟩)

/-! ### C4: placement geometry of the candidate plank -/

/-- C4 (amended): in the backtracking variant (tryPlacePlank) the plank
center is ballPosition plus the placement direction (the normalized ball
velocity rotated by the offset) scaled by
BALL_RADIUS + PLANK_WIDTH + 0.001, the two end points are the center plus
the placement direction rotated by plus and minus ninety degrees scaled by
the half length 0.6, the collider half extents are 0.6 and 0.15 and the
body rotation equals the offset; in the memento variant (placePlankForNote)
the scaling factor is 0.3 + 0.15 * 2 + 0.001 instead — ball radius plus the
full plank width, not the half width — and since Phaser's rotate mutates
the direction in place, the direction each iteration works with is the
incoming mutated direction rotated by the offset. -/
theorem placement_geometry :
    ∀ (position velocity dirIn : ℝ × ℝ) (angle : ℝ),
      (tryPlacePlankPose position velocity angle).center =
        vecAdd position
          (vecScale (rotateVector (normalizeVector velocity) angle)
            (BALL_RADIUS + PLANK_WIDTH + 0.001)) ∧
      (tryPlacePlankPose position velocity angle).halfWidth = 0.15 ∧
      (tryPlacePlankPose position velocity angle).halfLength = 0.6 ∧
      (tryPlacePlankPose position velocity angle).rotation = angle ∧
      (tryPlacePlankPose position velocity angle).endA =
        vecAdd (tryPlacePlankPose position velocity angle).center
          (vecScale
            (rotateVector (rotateVector (normalizeVector velocity) angle) (Real.pi / 2))
            PLANK_HALF_LENGTH) ∧
      (tryPlacePlankPose position velocity angle).endB =
        vecAdd (tryPlacePlankPose position velocity angle).center
          (vecScale
            (rotateVector (rotateVector (normalizeVector velocity) angle) (-(Real.pi / 2)))
            PLANK_HALF_LENGTH) ∧
      (placePlankCandidate position dirIn angle).2.center =
        vecAdd position
          (vecScale (rotateVector dirIn angle) (BALL_RADIUS + 2 * PLANK_WIDTH + 0.001)) ∧
      (placePlankCandidate position dirIn angle).1 = rotateVector dirIn angle := by
  intro position velocity dirIn angle
  refine ⟨rfl, rfl, rfl, rfl, rfl, ?_, ?_, rfl⟩
  · simp only [tryPlacePlankPose, vecAdd, vecSub, vecScale, rotateVector,
      Real.cos_neg, Real.sin_neg, Real.cos_pi_div_two, Real.sin_pi_div_two,
      Prod.mk.injEq]
    constructor <;> ring
  · simp only [placePlankCandidate, tryPlacePlankPose, vecAdd, vecScale, rotateVector,
      BALL_RADIUS, PLANK_WIDTH, Prod.mk.injEq]
    norm_num

/-- C4 counterexample: for the ball at the origin moving along the x axis
and the offset 0, placePlankForNote puts the plank center at
(0.601, 0) — distance ball radius plus the full plank width plus epsilon —
while the claimed formula ballPosition + direction * (0.3 + 0.15 + 0.001)
gives (0.451, 0). -/
theorem placement_distance_counterexample :
    (placePlankCandidate (0, 0) (1, 0) 0).2.center ≠
      vecAdd (0, 0)
        (vecScale (rotateVector (1, 0) 0) (BALL_RADIUS + PLANK_WIDTH + 0.001)) := by
  simp only [placePlankCandidate, vecAdd, vecScale, rotateVector, BALL_RADIUS, PLANK_WIDTH,
    Real.cos_zero, Real.sin_zero, Prod.mk.injEq, not_and]
  intro h
  norm_num at h

/-! ### C10: pointToSegmentDistance is the distance to the closed segment -/

/-- Value comparison for the distance quadratic at the left clamp: with a
non-positive dot product and a non-negative parameter, the squared distance
at parameter 0 is no larger than at parameter t. -/
theorem quad_min_left (L D t : ℝ) (hL : 0 ≤ L) (hD : D ≤ 0) (ht : 0 ≤ t) :
    (0 : ℝ) ≤ t ^ 2 * L - 2 * t * D := by
  nlinarith [mul_nonneg (mul_nonneg ht ht) hL, mul_nonneg ht (neg_nonneg.mpr hD)]

/-- Value comparison at the right clamp: with a dot product at least the
squared length and a parameter at most one, the squared distance at
parameter 1 is no larger than at parameter t. -/
theorem quad_min_right (L D t : ℝ) (hL : 0 ≤ L) (hD : L ≤ D) (ht : t ≤ 1) :
    1 ^ 2 * L - 2 * 1 * D ≤ t ^ 2 * L - 2 * t * D := by
  have h1 : 0 ≤ 1 - t := sub_nonneg.mpr ht
  have h2 : (1 + t) * L ≤ 2 * D := by nlinarith [mul_nonneg h1 hL]
  nlinarith [mul_nonneg h1 (sub_nonneg.mpr h2)]

/-- Value comparison at the interior minimum: the squared distance at the
projection parameter s = D / L is no larger than at any parameter t. -/
theorem quad_min_mid (L D t s : ℝ) (hL : 0 < L) (hs : s * L = D) :
    s ^ 2 * L - 2 * s * D ≤ t ^ 2 * L - 2 * t * D := by
  have key : t ^ 2 * L - 2 * t * D - (s ^ 2 * L - 2 * s * D) = L * (t - s) ^ 2 := by
    linear_combination (2 * t - 2 * s) * hs
  nlinarith [mul_nonneg hL.le (sq_nonneg (t - s))]

/-- C10: pointToSegmentDistance computes the least Euclidean distance from
the point to the closed segment between lineStart and lineEnd: it is
attained at a point of the segment and bounds every distance to a segment
point from below. -/
theorem pointToSegmentDistance_isLeast :
    ∀ (lineStart lineEnd point : ℝ × ℝ),
      IsLeast
        { d : ℝ | ∃ q : ℝ × ℝ, onSegment lineStart lineEnd q ∧ d = vecDistance point q }
        (pointToSegmentDistance lineStart lineEnd point) := by
  intro a b p
  obtain ⟨a1, a2⟩ := a
  obtain ⟨b1, b2⟩ := b
  obtain ⟨p1, p2⟩ := p
  constructor
  · -- the computed value is a distance to a segment point
    simp only [pointToSegmentDistance, vecSub, vecDot, vecLengthSq, vecAdd, vecScale,
      Set.mem_setOf_eq]
    split_ifs with h1 h2
    · exact ⟨(a1, a2), ⟨0, le_refl 0, zero_le_one, by
        simp [onSegment, vecAdd, vecScale, vecSub]⟩, rfl⟩
    · exact ⟨(b1, b2), ⟨1, zero_le_one, le_refl 1, by
        simp only [onSegment, vecAdd, vecScale, vecSub, Prod.mk.injEq]
        constructor <;> ring⟩, rfl⟩
    · have hD : 0 < (p1 - a1) * (b1 - a1) + (p2 - a2) * (b2 - a2) := not_le.mp h1
      have hDL : (p1 - a1) * (b1 - a1) + (p2 - a2) * (b2 - a2) <
          (b1 - a1) * (b1 - a1) + (b2 - a2) * (b2 - a2) := not_le.mp h2
      have hL : 0 < (b1 - a1) * (b1 - a1) + (b2 - a2) * (b2 - a2) := lt_trans hD hDL
      refine ⟨_, ⟨((p1 - a1) * (b1 - a1) + (p2 - a2) * (b2 - a2)) /
          ((b1 - a1) * (b1 - a1) + (b2 - a2) * (b2 - a2)),
          div_nonneg hD.le hL.le, (div_le_one hL).mpr hDL.le, ?_⟩, rfl⟩
      simp only [vecAdd, vecScale, vecSub]
  · -- the computed value bounds every distance to a segment point
    rintro d ⟨q, ⟨t, ht0, ht1, rfl⟩, rfl⟩
    simp only [pointToSegmentDistance, vecDistance, vecSub, vecDot, vecLengthSq, vecAdd,
      vecScale]
    split_ifs with h1 h2
    · apply Real.sqrt_le_sqrt
      have key := quad_min_left ((b1 - a1) * (b1 - a1) + (b2 - a2) * (b2 - a2))
        ((p1 - a1) * (b1 - a1) + (p2 - a2) * (b2 - a2)) t
        (add_nonneg (mul_self_nonneg _) (mul_self_nonneg _)) h1 ht0
      nlinarith [key]
    · apply Real.sqrt_le_sqrt
      have key := quad_min_right ((b1 - a1) * (b1 - a1) + (b2 - a2) * (b2 - a2))
        ((p1 - a1) * (b1 - a1) + (p2 - a2) * (b2 - a2)) t
        (add_nonneg (mul_self_nonneg _) (mul_self_nonneg _)) h2 ht1
      nlinarith [key]
    · apply Real.sqrt_le_sqrt
      have hD : 0 < (p1 - a1) * (b1 - a1) + (p2 - a2) * (b2 - a2) := not_le.mp h1
      have hDL : (p1 - a1) * (b1 - a1) + (p2 - a2) * (b2 - a2) <
          (b1 - a1) * (b1 - a1) + (b2 - a2) * (b2 - a2) := not_le.mp h2
      have hL : 0 < (b1 - a1) * (b1 - a1) + (b2 - a2) * (b2 - a2) := lt_trans hD hDL
      have key := quad_min_mid ((b1 - a1) * (b1 - a1) + (b2 - a2) * (b2 - a2))
        ((p1 - a1) * (b1 - a1) + (p2 - a2) * (b2 - a2)) t
        (((p1 - a1) * (b1 - a1) + (p2 - a2) * (b2 - a2)) /
          ((b1 - a1) * (b1 - a1) + (b2 - a2) * (b2 - a2)))
        hL (div_mul_cancel₀ _ (ne_of_gt hL))
      nlinarith [key]
